import Mathlib

/-!
# Health endpoint of the consul server (`consul/health_endpoint.go`)

A shallow embedding of the four read handlers of the `Health` endpoint:
`ChecksInState`, `NodeChecks`, `ServiceChecks` and `ServiceNodes`.

The handlers are translated statement by statement.  Go's side effects are made
explicit:

* the caller-owned `reply` is threaded through every call that receives the
  pointer or captures it (`forward`, the query closure, `blockingRPC`);
* the server state that lives outside the handler (replicated store contents,
  leadership, connections, clocks) is one value `w : W`, threaded the same way;
* every call a handler makes is appended to a trace of `Event`s, in program
  order, so that "is never invoked" and "is invoked first" are statements about
  that trace.

`Server.forward`, `Server.blockingRPC`, `fsm.State()` and the state-store
queries are not defined in `health_endpoint.go`; they are fields of the
`Server` value the handlers are given, so every theorem quantifies over all
their behaviours.

An index is a `uint64` in the source; the handlers only copy and compare
indices, so it is a `Nat` here.  The value `1` passed to `IncrCounter` is
recorded as the natural number `1`.
-/

namespace Consul

/-- Go's `error` values are represented by their message; `none` is `nil`. -/
abbrev Error := String

/-- Modelled from the spec: `structs.BlockingQuery`, whose declaration is not in
the source file; section 3 gives it as `{minIndex, maxWait}`. -/
structure BlockingQuery where
  MinIndex : Nat
  MaxWait : Nat
deriving DecidableEq, Repr

/-- Modelled from the spec: `structs.ChecksInStateRequest`; the fields are those
the handler reads (`Datacenter`, `State`, `BlockingQuery`). -/
structure ChecksInStateRequest where
  Datacenter : String
  State : String
  BlockingQuery : BlockingQuery
deriving DecidableEq, Repr

/-- Modelled from the spec: `structs.NodeSpecificRequest`; the fields are those
the handler reads (`Datacenter`, `Node`, `BlockingQuery`). -/
structure NodeSpecificRequest where
  Datacenter : String
  Node : String
  BlockingQuery : BlockingQuery
deriving DecidableEq, Repr

/-- Modelled from the spec: `structs.ServiceSpecificRequest`; the fields are
those the handlers read. -/
structure ServiceSpecificRequest where
  Datacenter : String
  ServiceName : String
  ServiceTag : String
  TagFilter : Bool
  BlockingQuery : BlockingQuery
deriving DecidableEq, Repr

/-- Modelled from the spec: `structs.IndexedHealthChecks`, a query result
`{index, data}` whose data is a sequence of health-check records `HC`. -/
structure IndexedHealthChecks (HC : Type) where
  Index : Nat
  HealthChecks : List HC
deriving DecidableEq, Repr

/-- Modelled from the spec: `structs.IndexedCheckServiceNodes`, a query result
`{index, data}` whose data is a sequence of node-with-checks records `CSN`. -/
structure IndexedCheckServiceNodes (CSN : Type) where
  Index : Nat
  Nodes : List CSN
deriving DecidableEq, Repr

/-- Modelled from the spec: `MDBTables`, the list of logical tables a query
reads from; a table is identified by its name. -/
abbrev MDBTables := List String

/-- The `args interface{}` values the handlers pass to `forward`. -/
inductive Request where
  | checksInState (args : ChecksInStateRequest)
  | nodeSpecific (args : NodeSpecificRequest)
  | serviceSpecific (args : ServiceSpecificRequest)
deriving DecidableEq, Repr

/-- The `reply interface{}` values the handlers pass to `forward`. -/
inductive Reply (HC CSN : Type) where
  | healthChecks (reply : IndexedHealthChecks HC)
  | checkServiceNodes (reply : IndexedCheckServiceNodes CSN)
deriving DecidableEq, Repr

/-- The static type behind a `reply` pointer. -/
inductive ReplyKind where
  | healthChecks
  | checkServiceNodes
deriving DecidableEq, Repr

/-- The reply structure a pointer of the given kind points to. -/
@[reducible] def ReplyKind.type (HC CSN : Type) : ReplyKind → Type
  | .healthChecks => IndexedHealthChecks HC
  | .checkServiceNodes => IndexedCheckServiceNodes CSN

/-- A call of one of the state-store queries, with its arguments. -/
inductive StoreCall where
  | ChecksInState (state : String)
  | NodeChecks (node : String)
  | ServiceChecks (service : String)
  | CheckServiceNodes (service : String)
  | CheckServiceTagNodes (service : String) (tag : String)
deriving DecidableEq, Repr

/-- The calls a handler makes, in program order. -/
inductive Event (HC CSN : Type) where
  | forward (method : String) (dc : String) (args : Request) (reply : Reply HC CSN)
  | fsmState
  | QueryTables (name : String)
  | blockingRPC (b : BlockingQuery) (tables : MDBTables)
  | store (call : StoreCall)
  | IncrCounter (key : List String) (val : Nat)
deriving DecidableEq, Repr

/-- What `forward` hands back: `(done, err)`, the reply as the call left it, and
the server state after the call. -/
structure ForwardResult (W R : Type) where
  done : Bool
  err : Option Error
  reply : R
  world : W

/-- One run of a query closure `func() (uint64, error)`: the pair it returns,
the reply as the run left it, and the store calls the run made. -/
structure QueryRun (R : Type) where
  idx : Nat
  err : Option Error
  reply : R
  calls : List StoreCall

/-- A query closure: it reads the store as it is when the closure runs and
writes the captured reply. -/
abbrev QueryFn (W R : Type) := W → R → QueryRun R

/-- What `blockingRPC` hands back: its `error`, the reply and the server state
after the call, and the store calls made while it ran. -/
structure ExecResult (W R : Type) where
  err : Option Error
  reply : R
  world : W
  calls : List StoreCall

/-- The `*StateStore` returned by `fsm.State()`: indexed point queries over the
store contents held in the server state, and the table lookup. -/
structure StateStore (W HC CSN : Type) where
  QueryTables : String → MDBTables
  ChecksInState : W → String → Nat × List HC
  NodeChecks : W → String → Nat × List HC
  ServiceChecks : W → String → Nat × List HC
  CheckServiceNodes : W → String → Nat × List CSN
  CheckServiceTagNodes : W → String → String → Nat × List CSN

/-- The `fsm` field of the server. -/
structure FSM (W HC CSN : Type) where
  State : StateStore W HC CSN

/-- The `*Server` behind `h.srv`: the collaborators the handlers call. -/
structure Server (W HC CSN : Type) where
  fsm : FSM W HC CSN
  forward : (k : ReplyKind) → String → String → Request → k.type HC CSN → W →
    ForwardResult W (k.type HC CSN)
  blockingRPC : (k : ReplyKind) → BlockingQuery → MDBTables → QueryFn W (k.type HC CSN) →
    W → k.type HC CSN → ExecResult W (k.type HC CSN)

/-- The result of a handler call: the returned `error`, the reply and the server
state when the handler returns, and the calls it made. -/
structure Outcome (W HC CSN R : Type) where
  err : Option Error
  reply : R
  world : W
  trace : List (Event HC CSN)

namespace Health

variable {W HC CSN : Type}

/-- The closure `ChecksInState` hands to `blockingRPC` (lines 25-28). -/
def checksInStateQuery (state : StateStore W HC CSN) (args : ChecksInStateRequest) :
    QueryFn W (IndexedHealthChecks HC) :=
  fun w reply =>
    let r := state.ChecksInState w args.State
    let reply := { reply with Index := r.1, HealthChecks := r.2 }
    { idx := reply.Index, err := none, reply := reply,
      calls := [StoreCall.ChecksInState args.State] }

/-- The closure `NodeChecks` hands to `blockingRPC` (lines 42-45). -/
def nodeChecksQuery (state : StateStore W HC CSN) (args : NodeSpecificRequest) :
    QueryFn W (IndexedHealthChecks HC) :=
  fun w reply =>
    let r := state.NodeChecks w args.Node
    let reply := { reply with Index := r.1, HealthChecks := r.2 }
    { idx := reply.Index, err := none, reply := reply,
      calls := [StoreCall.NodeChecks args.Node] }

/-- The closure `ServiceChecks` hands to `blockingRPC` (lines 65-68). -/
def serviceChecksQuery (state : StateStore W HC CSN) (args : ServiceSpecificRequest) :
    QueryFn W (IndexedHealthChecks HC) :=
  fun w reply =>
    let r := state.ServiceChecks w args.ServiceName
    let reply := { reply with Index := r.1, HealthChecks := r.2 }
    { idx := reply.Index, err := none, reply := reply,
      calls := [StoreCall.ServiceChecks args.ServiceName] }

/-- The closure `ServiceNodes` hands to `blockingRPC` (lines 86-93). -/
def serviceNodesQuery (state : StateStore W HC CSN) (args : ServiceSpecificRequest) :
    QueryFn W (IndexedCheckServiceNodes CSN) :=
  fun w reply =>
    if args.TagFilter then
      let r := state.CheckServiceTagNodes w args.ServiceName args.ServiceTag
      let reply := { reply with Index := r.1, Nodes := r.2 }
      { idx := reply.Index, err := none, reply := reply,
        calls := [StoreCall.CheckServiceTagNodes args.ServiceName args.ServiceTag] }
    else
      let r := state.CheckServiceNodes w args.ServiceName
      let reply := { reply with Index := r.1, Nodes := r.2 }
      { idx := reply.Index, err := none, reply := reply,
        calls := [StoreCall.CheckServiceNodes args.ServiceName] }

/-- ChecksInState is used to get all the checks in a given state
(`Health.ChecksInState`, lines 14-29). -/
def ChecksInState (srv : Server W HC CSN) (args : ChecksInStateRequest)
    (reply : IndexedHealthChecks HC) (w : W) : Outcome W HC CSN (IndexedHealthChecks HC) :=
  let f := srv.forward .healthChecks "Health.ChecksInState" args.Datacenter
    (.checksInState args) reply w
  let ev : Event HC CSN := .forward "Health.ChecksInState" args.Datacenter
    (.checksInState args) (.healthChecks reply)
  if f.done then
    { err := f.err, reply := f.reply, world := f.world, trace := [ev] }
  else
    let state := srv.fsm.State
    let tables := state.QueryTables "ChecksInState"
    let r := srv.blockingRPC .healthChecks args.BlockingQuery tables (checksInStateQuery state args)
      f.world f.reply
    { err := r.err, reply := r.reply, world := r.world,
      trace := [ev, Event.fsmState, Event.QueryTables "ChecksInState",
        Event.blockingRPC args.BlockingQuery tables] ++ r.calls.map Event.store }

/-- NodeChecks is used to get all the checks for a node
(`Health.NodeChecks`, lines 31-46). -/
def NodeChecks (srv : Server W HC CSN) (args : NodeSpecificRequest)
    (reply : IndexedHealthChecks HC) (w : W) : Outcome W HC CSN (IndexedHealthChecks HC) :=
  let f := srv.forward .healthChecks "Health.NodeChecks" args.Datacenter
    (.nodeSpecific args) reply w
  let ev : Event HC CSN := .forward "Health.NodeChecks" args.Datacenter
    (.nodeSpecific args) (.healthChecks reply)
  if f.done then
    { err := f.err, reply := f.reply, world := f.world, trace := [ev] }
  else
    let state := srv.fsm.State
    let tables := state.QueryTables "NodeChecks"
    let r := srv.blockingRPC .healthChecks args.BlockingQuery tables (nodeChecksQuery state args)
      f.world f.reply
    { err := r.err, reply := r.reply, world := r.world,
      trace := [ev, Event.fsmState, Event.QueryTables "NodeChecks",
        Event.blockingRPC args.BlockingQuery tables] ++ r.calls.map Event.store }

/-- ServiceChecks is used to get all the checks for a service
(`Health.ServiceChecks`, lines 48-69). -/
def ServiceChecks (srv : Server W HC CSN) (args : ServiceSpecificRequest)
    (reply : IndexedHealthChecks HC) (w : W) : Outcome W HC CSN (IndexedHealthChecks HC) :=
  if args.TagFilter then
    { err := some "Tag filtering is not supported", reply := reply, world := w, trace := [] }
  else
    let f := srv.forward .healthChecks "Health.ServiceChecks" args.Datacenter
      (.serviceSpecific args) reply w
    let ev : Event HC CSN := .forward "Health.ServiceChecks" args.Datacenter
      (.serviceSpecific args) (.healthChecks reply)
    if f.done then
      { err := f.err, reply := f.reply, world := f.world, trace := [ev] }
    else
      let state := srv.fsm.State
      let tables := state.QueryTables "ServiceChecks"
      let r := srv.blockingRPC .healthChecks args.BlockingQuery tables (serviceChecksQuery state args)
        f.world f.reply
      { err := r.err, reply := r.reply, world := r.world,
        trace := [ev, Event.fsmState, Event.QueryTables "ServiceChecks",
          Event.blockingRPC args.BlockingQuery tables] ++ r.calls.map Event.store }

/-- The metrics block of `ServiceNodes` (lines 95-104): the `IncrCounter` calls
it makes, given the request, the reply and the error of `blockingRPC`. -/
def serviceNodesMetrics (args : ServiceSpecificRequest) (reply : IndexedCheckServiceNodes CSN)
    (err : Option Error) : List (Event HC CSN) :=
  if err = none then
    [Event.IncrCounter ["consul", "health", "service", "query", args.ServiceName] 1]
    ++ (if args.ServiceTag ≠ "" then
          [Event.IncrCounter
            ["consul", "health", "service", "query-tag", args.ServiceName, args.ServiceTag] 1]
        else [])
    ++ (if reply.Nodes.length = 0 then
          [Event.IncrCounter ["consul", "health", "service", "not-found", args.ServiceName] 1]
        else [])
  else []

/-- ServiceNodes returns all the nodes registered as part of a service including
health info (`Health.ServiceNodes`, lines 71-106). -/
def ServiceNodes (srv : Server W HC CSN) (args : ServiceSpecificRequest)
    (reply : IndexedCheckServiceNodes CSN) (w : W) :
    Outcome W HC CSN (IndexedCheckServiceNodes CSN) :=
  let f := srv.forward .checkServiceNodes "Health.ServiceNodes" args.Datacenter
    (.serviceSpecific args) reply w
  let ev : Event HC CSN := .forward "Health.ServiceNodes" args.Datacenter
    (.serviceSpecific args) (.checkServiceNodes reply)
  if f.done then
    { err := f.err, reply := f.reply, world := f.world, trace := [ev] }
  else if args.ServiceName = "" then
    { err := some "Must provide service name", reply := f.reply, world := f.world,
      trace := [ev] }
  else
    let state := srv.fsm.State
    let tables := state.QueryTables "CheckServiceNodes"
    let r := srv.blockingRPC .checkServiceNodes args.BlockingQuery tables (serviceNodesQuery state args)
      f.world f.reply
    let err := r.err
    { err := err, reply := r.reply, world := r.world,
      trace := [ev, Event.fsmState, Event.QueryTables "CheckServiceNodes",
        Event.blockingRPC args.BlockingQuery tables] ++ r.calls.map Event.store
        ++ serviceNodesMetrics args r.reply err }

/-- The handler `ServiceNodes` with its metrics block (lines 95-104) removed:
lines 71-94 followed by `return err`. -/
def ServiceNodesNoMetrics (srv : Server W HC CSN) (args : ServiceSpecificRequest)
    (reply : IndexedCheckServiceNodes CSN) (w : W) :
    Outcome W HC CSN (IndexedCheckServiceNodes CSN) :=
  let f := srv.forward .checkServiceNodes "Health.ServiceNodes" args.Datacenter
    (.serviceSpecific args) reply w
  let ev : Event HC CSN := .forward "Health.ServiceNodes" args.Datacenter
    (.serviceSpecific args) (.checkServiceNodes reply)
  if f.done then
    { err := f.err, reply := f.reply, world := f.world, trace := [ev] }
  else if args.ServiceName = "" then
    { err := some "Must provide service name", reply := f.reply, world := f.world,
      trace := [ev] }
  else
    let state := srv.fsm.State
    let tables := state.QueryTables "CheckServiceNodes"
    let r := srv.blockingRPC .checkServiceNodes args.BlockingQuery tables
      (serviceNodesQuery state args) f.world f.reply
    let err := r.err
    { err := err, reply := r.reply, world := r.world,
      trace := [ev, Event.fsmState, Event.QueryTables "CheckServiceNodes",
        Event.blockingRPC args.BlockingQuery tables] ++ r.calls.map Event.store }

/-! ### The calls of each handler, named

The `forward` call of a handler, the event it leaves in the trace, and the
`blockingRPC` call the handler makes on the reply and server state `forward`
left behind. -/

/-- The `forward` call of `ChecksInState` (line 17). -/
def fwdChecksInState (srv : Server W HC CSN) (args : ChecksInStateRequest)
    (reply : IndexedHealthChecks HC) (w : W) : ForwardResult W (IndexedHealthChecks HC) :=
  srv.forward .healthChecks "Health.ChecksInState" args.Datacenter (.checksInState args) reply w

/-- The `forward` call of `NodeChecks` (line 34). -/
def fwdNodeChecks (srv : Server W HC CSN) (args : NodeSpecificRequest)
    (reply : IndexedHealthChecks HC) (w : W) : ForwardResult W (IndexedHealthChecks HC) :=
  srv.forward .healthChecks "Health.NodeChecks" args.Datacenter (.nodeSpecific args) reply w

/-- The `forward` call of `ServiceChecks` (line 57). -/
def fwdServiceChecks (srv : Server W HC CSN) (args : ServiceSpecificRequest)
    (reply : IndexedHealthChecks HC) (w : W) : ForwardResult W (IndexedHealthChecks HC) :=
  srv.forward .healthChecks "Health.ServiceChecks" args.Datacenter (.serviceSpecific args) reply w

/-- The `forward` call of `ServiceNodes` (line 73). -/
def fwdServiceNodes (srv : Server W HC CSN) (args : ServiceSpecificRequest)
    (reply : IndexedCheckServiceNodes CSN) (w : W) :
    ForwardResult W (IndexedCheckServiceNodes CSN) :=
  srv.forward .checkServiceNodes "Health.ServiceNodes" args.Datacenter (.serviceSpecific args)
    reply w

/-- The trace entry of the `forward` call of `ChecksInState`. -/
def evChecksInState (args : ChecksInStateRequest) (reply : IndexedHealthChecks HC) :
    Event HC CSN :=
  .forward "Health.ChecksInState" args.Datacenter (.checksInState args) (.healthChecks reply)

/-- The trace entry of the `forward` call of `NodeChecks`. -/
def evNodeChecks (args : NodeSpecificRequest) (reply : IndexedHealthChecks HC) :
    Event HC CSN :=
  .forward "Health.NodeChecks" args.Datacenter (.nodeSpecific args) (.healthChecks reply)

/-- The trace entry of the `forward` call of `ServiceChecks`. -/
def evServiceChecks (args : ServiceSpecificRequest) (reply : IndexedHealthChecks HC) :
    Event HC CSN :=
  .forward "Health.ServiceChecks" args.Datacenter (.serviceSpecific args) (.healthChecks reply)

/-- The trace entry of the `forward` call of `ServiceNodes`. -/
def evServiceNodes (args : ServiceSpecificRequest) (reply : IndexedCheckServiceNodes CSN) :
    Event HC CSN :=
  .forward "Health.ServiceNodes" args.Datacenter (.serviceSpecific args)
    (.checkServiceNodes reply)

/-- The `blockingRPC` call of `ChecksInState` (lines 22-28). -/
def execChecksInState (srv : Server W HC CSN) (args : ChecksInStateRequest)
    (reply : IndexedHealthChecks HC) (w : W) : ExecResult W (IndexedHealthChecks HC) :=
  srv.blockingRPC .healthChecks args.BlockingQuery (srv.fsm.State.QueryTables "ChecksInState")
    (checksInStateQuery srv.fsm.State args) (fwdChecksInState srv args reply w).world
    (fwdChecksInState srv args reply w).reply

/-- The `blockingRPC` call of `NodeChecks` (lines 39-45). -/
def execNodeChecks (srv : Server W HC CSN) (args : NodeSpecificRequest)
    (reply : IndexedHealthChecks HC) (w : W) : ExecResult W (IndexedHealthChecks HC) :=
  srv.blockingRPC .healthChecks args.BlockingQuery (srv.fsm.State.QueryTables "NodeChecks")
    (nodeChecksQuery srv.fsm.State args) (fwdNodeChecks srv args reply w).world
    (fwdNodeChecks srv args reply w).reply

/-- The `blockingRPC` call of `ServiceChecks` (lines 62-68). -/
def execServiceChecks (srv : Server W HC CSN) (args : ServiceSpecificRequest)
    (reply : IndexedHealthChecks HC) (w : W) : ExecResult W (IndexedHealthChecks HC) :=
  srv.blockingRPC .healthChecks args.BlockingQuery (srv.fsm.State.QueryTables "ServiceChecks")
    (serviceChecksQuery srv.fsm.State args) (fwdServiceChecks srv args reply w).world
    (fwdServiceChecks srv args reply w).reply

/-- The `blockingRPC` call of `ServiceNodes` (lines 83-93). -/
def execServiceNodes (srv : Server W HC CSN) (args : ServiceSpecificRequest)
    (reply : IndexedCheckServiceNodes CSN) (w : W) :
    ExecResult W (IndexedCheckServiceNodes CSN) :=
  srv.blockingRPC .checkServiceNodes args.BlockingQuery
    (srv.fsm.State.QueryTables "CheckServiceNodes")
    (serviceNodesQuery srv.fsm.State args) (fwdServiceNodes srv args reply w).world
    (fwdServiceNodes srv args reply w).reply

end Health

/-! ## Reading a trace -/

section Trace

variable {HC CSN : Type}

/-- The `IncrCounter` calls of a trace, in order, as `(key, value)` pairs. -/
def counterCalls : List (Event HC CSN) → List (List String × Nat)
  | [] => []
  | Event.IncrCounter key val :: rest => (key, val) :: counterCalls rest
  | _ :: rest => counterCalls rest

/-- The state-store queries of a trace, in order. -/
def storeCalls : List (Event HC CSN) → List StoreCall
  | [] => []
  | Event.store call :: rest => call :: storeCalls rest
  | _ :: rest => storeCalls rest

/-- Is the event a call of `forward`? -/
def Event.isForward : Event HC CSN → Bool
  | .forward _ _ _ _ => true
  | _ => false

/-- Is the event a call of `blockingRPC` or of a state-store query, that is, a
use of the Blocking Query Executor against the store? -/
def Event.isExecutor : Event HC CSN → Bool
  | .blockingRPC _ _ => true
  | .store _ => true
  | _ => false

/-- Is the event an `IncrCounter` call? -/
def Event.isIncrCounter : Event HC CSN → Bool
  | .IncrCounter _ _ => true
  | _ => false

end Trace

/-! ## The Blocking Query Executor of the specification -/

section Executor

variable {W R : Type}

/-- Modelled from the spec: the wait step `WaitFor(table, sinceIndex, timeout)`
of the State Index and Watch Registry (section 4.1), which is not in the source
file.  It reports whether a change was observed and the server state after the
wait. -/
abbrev WaitFor (W : Type) := MDBTables → Nat → Nat → W → Bool × W

/-- Modelled from the spec: steps 2 to 4 of the Blocking Query Executor (section
4.2), which is not in the source file.  Run the query function; an error aborts
and is surfaced; an index above `minIndex` is returned at once; otherwise wait on
the declared tables for the remaining portion of `maxWait`, and on a change run
the query again, re-checking the index.  When the wait budget is used up or no
change is observed, the last result is returned without error. -/
def blockingLoop (waitFor : WaitFor W) (minIndex : Nat) (tables : MDBTables)
    (run : QueryFn W R) : Nat → W → R → ExecResult W R
  | remaining, w, reply =>
    let q := run w reply
    if q.err.isSome then
      { err := q.err, reply := q.reply, world := w, calls := q.calls }
    else if q.idx > minIndex then
      { err := none, reply := q.reply, world := w, calls := q.calls }
    else
      match remaining with
      | 0 => { err := none, reply := q.reply, world := w, calls := q.calls }
      | n + 1 =>
        let c := waitFor tables minIndex (n + 1) w
        if c.1 then
          let r := blockingLoop waitFor minIndex tables run n c.2 q.reply
          { r with calls := q.calls ++ r.calls }
        else
          { err := none, reply := q.reply, world := c.2, calls := q.calls }

/-- Modelled from the spec: the Blocking Query Executor `blockingRPC` (section
4.2), which is not in the source file.  Step 1: if `minIndex == 0`, run the
query function once and return immediately; otherwise the loop of steps 2 to 4
with `maxWait` as the wait budget. -/
def blockingRPCSpec (waitFor : WaitFor W) (b : BlockingQuery) (tables : MDBTables)
    (run : QueryFn W R) (w : W) (reply : R) : ExecResult W R :=
  if b.MinIndex = 0 then
    let q := run w reply
    { err := q.err, reply := q.reply, world := w, calls := q.calls }
  else
    blockingLoop waitFor b.MinIndex tables run b.MaxWait w reply

end Executor

/-! ## A concrete server

The store contents are a table index and the names of the registered services;
a check record and a node record are strings. -/

namespace Sample

/-- Store contents: the current index and the services known to the catalog. -/
structure World where
  index : Nat
  services : List String
deriving DecidableEq, Repr

/-- The checks of a service: one check, named after the service, when the
service is registered. -/
def checksOf (w : World) (service : String) : Nat × List String :=
  (w.index, if w.services.contains service then ["check:" ++ service] else [])

/-- The nodes of a service: one node, named after the service, when the service
is registered. -/
def nodesOf (w : World) (service : String) : Nat × List String :=
  (w.index, if w.services.contains service then [service] else [])

/-- The nodes of a service that carry a tag. -/
def taggedNodesOf (w : World) (service tag : String) : Nat × List String :=
  (w.index, if w.services.contains service then [service ++ "/" ++ tag] else [])

/-- A store whose queries answer at the current index. -/
def store : StateStore World String String where
  QueryTables := fun name => [name]
  ChecksInState := fun w state => (w.index, [state])
  NodeChecks := fun w node => (w.index, ["check@" ++ node])
  ServiceChecks := checksOf
  CheckServiceNodes := nodesOf
  CheckServiceTagNodes := taggedNodesOf

/-- A wait step that always observes a change: the index moves on by one. -/
def waitFor : WaitFor World :=
  fun _ _ _ w => (true, { w with index := w.index + 1 })

/-- A server of datacenter `dc1`: requests for another datacenter are answered by
`forward` with the error `No path to datacenter`, all others run locally
through the executor of the specification. -/
def srv : Server World String String where
  fsm := { State := store }
  forward := fun _ _ dc _ reply w =>
    if dc = "" ∨ dc = "dc1" then
      { done := false, err := none, reply := reply, world := w }
    else
      { done := true, err := some "No path to datacenter", reply := reply, world := w }
  blockingRPC := fun _ b tables run w reply => blockingRPCSpec waitFor b tables run w reply

/-- A server whose store cannot be read: `blockingRPC` fails with `rpc error`
without running the query. -/
def failing : Server World String String where
  fsm := { State := store }
  forward := srv.forward
  blockingRPC := fun _ _ _ _ w reply =>
    { err := some "rpc error", reply := reply, world := w, calls := [] }

/-- The store when the sample requests arrive. -/
def world : World := { index := 7, services := ["web"] }

/-- A request for the nodes of service `web` in the local datacenter. -/
def webNodes : ServiceSpecificRequest :=
  { Datacenter := "dc1", ServiceName := "web", ServiceTag := "", TagFilter := false,
    BlockingQuery := { MinIndex := 0, MaxWait := 0 } }

/-- The same request with tag filtering switched on. -/
def webTagged : ServiceSpecificRequest :=
  { webNodes with ServiceTag := "v1", TagFilter := true }

/-- A request for the nodes of the unregistered service `db` that carry tag `v1`,
without tag filtering. -/
def dbTagged : ServiceSpecificRequest :=
  { webNodes with ServiceName := "db", ServiceTag := "v1" }

/-- A request that names no service. -/
def unnamed : ServiceSpecificRequest :=
  { webNodes with ServiceName := "" }

/-- A request for another datacenter. -/
def remoteNodes : ServiceSpecificRequest :=
  { webNodes with Datacenter := "dc2" }

/-- A request for the checks in state `critical`. -/
def critical : ChecksInStateRequest :=
  { Datacenter := "", State := "critical", BlockingQuery := { MinIndex := 0, MaxWait := 5 } }

/-- A request for the checks of node `n1`. -/
def nodeOne : NodeSpecificRequest :=
  { Datacenter := "dc1", Node := "n1", BlockingQuery := { MinIndex := 0, MaxWait := 0 } }

/-- An empty reply of the health-check kind. -/
def noChecks : IndexedHealthChecks String := { Index := 0, HealthChecks := [] }

/-- An empty reply of the node kind. -/
def noNodes : IndexedCheckServiceNodes String := { Index := 0, Nodes := [] }

end Sample

/-! ## Lemmas on traces -/

section TraceLemmas

variable {HC CSN : Type}

theorem storeCalls_append (xs ys : List (Event HC CSN)) :
    storeCalls (xs ++ ys) = storeCalls xs ++ storeCalls ys := by
  induction xs with
  | nil => rfl
  | cons e rest ih => cases e <;> simp [storeCalls, ih]

theorem storeCalls_map_store (cs : List StoreCall) :
    storeCalls (cs.map (Event.store : StoreCall → Event HC CSN)) = cs := by
  induction cs with
  | nil => rfl
  | cons c rest ih => simp [storeCalls, ih]

theorem counterCalls_append (xs ys : List (Event HC CSN)) :
    counterCalls (xs ++ ys) = counterCalls xs ++ counterCalls ys := by
  induction xs with
  | nil => rfl
  | cons e rest ih => cases e <;> simp [counterCalls, ih]

theorem counterCalls_map_store (cs : List StoreCall) :
    counterCalls (cs.map (Event.store : StoreCall → Event HC CSN)) = [] := by
  induction cs with
  | nil => rfl
  | cons c rest ih => simp [counterCalls, ih]

theorem storeCalls_serviceNodesMetrics (args : ServiceSpecificRequest)
    (reply : IndexedCheckServiceNodes CSN) (err : Option Error) :
    storeCalls (Health.serviceNodesMetrics args reply err : List (Event HC CSN)) = [] := by
  unfold Health.serviceNodesMetrics
  split
  · split <;> split <;> simp [storeCalls]
  · rfl

end TraceLemmas

/-! ## The handlers past `forward` -/

namespace Health

variable {W HC CSN : Type}

theorem checksInState_local (srv : Server W HC CSN) (args : ChecksInStateRequest)
    (reply : IndexedHealthChecks HC) (w : W)
    (hfwd : (fwdChecksInState srv args reply w).done = false) :
    ChecksInState srv args reply w
      = { err := (execChecksInState srv args reply w).err,
          reply := (execChecksInState srv args reply w).reply,
          world := (execChecksInState srv args reply w).world,
          trace := [evChecksInState args reply, Event.fsmState,
            Event.QueryTables "ChecksInState",
            Event.blockingRPC args.BlockingQuery (srv.fsm.State.QueryTables "ChecksInState")]
            ++ (execChecksInState srv args reply w).calls.map Event.store } := by
  unfold fwdChecksInState at hfwd
  simp [ChecksInState, execChecksInState, fwdChecksInState, evChecksInState, hfwd]

theorem nodeChecks_local (srv : Server W HC CSN) (args : NodeSpecificRequest)
    (reply : IndexedHealthChecks HC) (w : W)
    (hfwd : (fwdNodeChecks srv args reply w).done = false) :
    NodeChecks srv args reply w
      = { err := (execNodeChecks srv args reply w).err,
          reply := (execNodeChecks srv args reply w).reply,
          world := (execNodeChecks srv args reply w).world,
          trace := [evNodeChecks args reply, Event.fsmState, Event.QueryTables "NodeChecks",
            Event.blockingRPC args.BlockingQuery (srv.fsm.State.QueryTables "NodeChecks")]
            ++ (execNodeChecks srv args reply w).calls.map Event.store } := by
  unfold fwdNodeChecks at hfwd
  simp [NodeChecks, execNodeChecks, fwdNodeChecks, evNodeChecks, hfwd]

theorem serviceChecks_local (srv : Server W HC CSN) (args : ServiceSpecificRequest)
    (reply : IndexedHealthChecks HC) (w : W) (htag : args.TagFilter = false)
    (hfwd : (fwdServiceChecks srv args reply w).done = false) :
    ServiceChecks srv args reply w
      = { err := (execServiceChecks srv args reply w).err,
          reply := (execServiceChecks srv args reply w).reply,
          world := (execServiceChecks srv args reply w).world,
          trace := [evServiceChecks args reply, Event.fsmState,
            Event.QueryTables "ServiceChecks",
            Event.blockingRPC args.BlockingQuery (srv.fsm.State.QueryTables "ServiceChecks")]
            ++ (execServiceChecks srv args reply w).calls.map Event.store } := by
  unfold fwdServiceChecks at hfwd
  simp [ServiceChecks, execServiceChecks, fwdServiceChecks, evServiceChecks, htag, hfwd]

theorem serviceNodes_local (srv : Server W HC CSN) (args : ServiceSpecificRequest)
    (reply : IndexedCheckServiceNodes CSN) (w : W) (hname : args.ServiceName ≠ "")
    (hfwd : (fwdServiceNodes srv args reply w).done = false) :
    ServiceNodes srv args reply w
      = { err := (execServiceNodes srv args reply w).err,
          reply := (execServiceNodes srv args reply w).reply,
          world := (execServiceNodes srv args reply w).world,
          trace := [evServiceNodes args reply, Event.fsmState,
            Event.QueryTables "CheckServiceNodes",
            Event.blockingRPC args.BlockingQuery
              (srv.fsm.State.QueryTables "CheckServiceNodes")]
            ++ (execServiceNodes srv args reply w).calls.map Event.store
            ++ serviceNodesMetrics args (execServiceNodes srv args reply w).reply
                (execServiceNodes srv args reply w).err } := by
  unfold fwdServiceNodes at hfwd
  simp [ServiceNodes, execServiceNodes, fwdServiceNodes, evServiceNodes, hname, hfwd]

theorem blockingRPCSpec_minIndex_zero {R : Type} (waitFor : WaitFor W) (b : BlockingQuery)
    (tables : MDBTables) (run : QueryFn W R) (w : W) (reply : R) (hmin : b.MinIndex = 0) :
    blockingRPCSpec waitFor b tables run w reply
      = { err := (run w reply).err, reply := (run w reply).reply, world := w,
          calls := (run w reply).calls } := by
  simp [blockingRPCSpec, hmin]

end Health

/-! ## Theorems -/

namespace Health

variable {W HC CSN : Type}

/-- C1: a `ServiceChecks` request with `TagFilter = true` is answered with the
error "Tag filtering is not supported", whatever the rest of the request and the
server are; no call is made (the trace is empty, so neither `forward`,
`QueryTables`, `blockingRPC` nor a store query ran), and the reply and the server
state are the ones the handler was given. -/
theorem serviceChecks_tagFilter_unsupported (srv : Server W HC CSN)
    (args : ServiceSpecificRequest) (reply : IndexedHealthChecks HC) (w : W)
    (htag : args.TagFilter = true) :
    (ServiceChecks srv args reply w).err = some "Tag filtering is not supported" ∧
    (ServiceChecks srv args reply w).trace = [] ∧
    (ServiceChecks srv args reply w).reply = reply ∧
    (ServiceChecks srv args reply w).world = w := by
  simp [ServiceChecks, htag]

/-- Witness of C1: the sample request with tag filtering on. -/
theorem serviceChecks_tagFilter_unsupported_witness :
    Sample.webTagged.TagFilter = true ∧
    (ServiceChecks Sample.srv Sample.webTagged Sample.noChecks Sample.world).err
      = some "Tag filtering is not supported" ∧
    (ServiceChecks Sample.srv Sample.webTagged Sample.noChecks Sample.world).trace = [] ∧
    (ServiceChecks Sample.srv Sample.webTagged Sample.noChecks Sample.world).reply
      = Sample.noChecks ∧
    (ServiceChecks Sample.srv Sample.webTagged Sample.noChecks Sample.world).world
      = Sample.world :=
  ⟨rfl, serviceChecks_tagFilter_unsupported Sample.srv Sample.webTagged Sample.noChecks
    Sample.world rfl⟩

/-- C2: a `ServiceNodes` request with an empty `ServiceName` that `forward` does
not handle is answered with the error "Must provide service name"; the only call
made is the `forward` call (so `QueryTables`, `blockingRPC`, `CheckServiceNodes`
and `CheckServiceTagNodes` did not run and no counter was incremented), and the
reply and the server state are those `forward` left. -/
theorem serviceNodes_missing_name (srv : Server W HC CSN)
    (args : ServiceSpecificRequest) (reply : IndexedCheckServiceNodes CSN) (w : W)
    (hname : args.ServiceName = "")
    (hfwd : (fwdServiceNodes srv args reply w).done = false) :
    (ServiceNodes srv args reply w).err = some "Must provide service name" ∧
    (ServiceNodes srv args reply w).trace = [evServiceNodes args reply] ∧
    (ServiceNodes srv args reply w).reply = (fwdServiceNodes srv args reply w).reply ∧
    (ServiceNodes srv args reply w).world = (fwdServiceNodes srv args reply w).world := by
  unfold fwdServiceNodes at hfwd
  simp [ServiceNodes, fwdServiceNodes, evServiceNodes, hname, hfwd]

/-- Witness of C2: the sample request that names no service, in the local
datacenter. -/
theorem serviceNodes_missing_name_witness :
    Sample.unnamed.ServiceName = "" ∧
    (fwdServiceNodes Sample.srv Sample.unnamed Sample.noNodes Sample.world).done = false ∧
    (ServiceNodes Sample.srv Sample.unnamed Sample.noNodes Sample.world).err
      = some "Must provide service name" ∧
    (ServiceNodes Sample.srv Sample.unnamed Sample.noNodes Sample.world).reply
      = Sample.noNodes :=
  ⟨rfl, by decide,
    (serviceNodes_missing_name Sample.srv Sample.unnamed Sample.noNodes Sample.world rfl
      (by decide)).1,
    (serviceNodes_missing_name Sample.srv Sample.unnamed Sample.noNodes Sample.world rfl
      (by decide)).2.2.1⟩

/-- C3: forwarding is a pure pass-through in every handler.  For `ChecksInState`,
`NodeChecks`, `ServiceChecks` (with `TagFilter = false`) and `ServiceNodes` (the
`ServiceName` may be empty): when `forward` reports `done = true`, the handler
returns exactly the error of `forward` (`nil` included), the only call in the
trace is the `forward` call (no `blockingRPC`, no store query, no counter), and
the reply and server state are those `forward` left. -/
theorem forward_pass_through (srv : Server W HC CSN) (w : W) :
    (∀ (args : ChecksInStateRequest) (reply : IndexedHealthChecks HC),
      (fwdChecksInState srv args reply w).done = true →
        (ChecksInState srv args reply w).err = (fwdChecksInState srv args reply w).err ∧
        (ChecksInState srv args reply w).trace = [evChecksInState args reply] ∧
        (ChecksInState srv args reply w).reply = (fwdChecksInState srv args reply w).reply ∧
        (ChecksInState srv args reply w).world = (fwdChecksInState srv args reply w).world) ∧
    (∀ (args : NodeSpecificRequest) (reply : IndexedHealthChecks HC),
      (fwdNodeChecks srv args reply w).done = true →
        (NodeChecks srv args reply w).err = (fwdNodeChecks srv args reply w).err ∧
        (NodeChecks srv args reply w).trace = [evNodeChecks args reply] ∧
        (NodeChecks srv args reply w).reply = (fwdNodeChecks srv args reply w).reply ∧
        (NodeChecks srv args reply w).world = (fwdNodeChecks srv args reply w).world) ∧
    (∀ (args : ServiceSpecificRequest) (reply : IndexedHealthChecks HC),
      args.TagFilter = false → (fwdServiceChecks srv args reply w).done = true →
        (ServiceChecks srv args reply w).err = (fwdServiceChecks srv args reply w).err ∧
        (ServiceChecks srv args reply w).trace = [evServiceChecks args reply] ∧
        (ServiceChecks srv args reply w).reply = (fwdServiceChecks srv args reply w).reply ∧
        (ServiceChecks srv args reply w).world = (fwdServiceChecks srv args reply w).world) ∧
    (∀ (args : ServiceSpecificRequest) (reply : IndexedCheckServiceNodes CSN),
      (fwdServiceNodes srv args reply w).done = true →
        (ServiceNodes srv args reply w).err = (fwdServiceNodes srv args reply w).err ∧
        (ServiceNodes srv args reply w).trace = [evServiceNodes args reply] ∧
        (ServiceNodes srv args reply w).reply = (fwdServiceNodes srv args reply w).reply ∧
        (ServiceNodes srv args reply w).world = (fwdServiceNodes srv args reply w).world) := by
  refine ⟨?_, ?_, ?_, ?_⟩
  · intro args reply h
    unfold fwdChecksInState at h
    simp [ChecksInState, fwdChecksInState, evChecksInState, h]
  · intro args reply h
    unfold fwdNodeChecks at h
    simp [NodeChecks, fwdNodeChecks, evNodeChecks, h]
  · intro args reply htag h
    unfold fwdServiceChecks at h
    simp [ServiceChecks, fwdServiceChecks, evServiceChecks, htag, h]
  · intro args reply h
    unfold fwdServiceNodes at h
    simp [ServiceNodes, fwdServiceNodes, evServiceNodes, h]

/-- Witness of C3: the sample request for datacenter `dc2` is handled by
`forward`, and `ServiceNodes` returns the error of `forward`. -/
theorem forward_pass_through_witness :
    (fwdServiceNodes Sample.srv Sample.remoteNodes Sample.noNodes Sample.world).done = true ∧
    (ServiceNodes Sample.srv Sample.remoteNodes Sample.noNodes Sample.world).err
      = some "No path to datacenter" ∧
    (ServiceNodes Sample.srv Sample.remoteNodes Sample.noNodes Sample.world).trace
      = [evServiceNodes Sample.remoteNodes Sample.noNodes] :=
  ⟨by decide,
    ((forward_pass_through Sample.srv Sample.world).2.2.2 Sample.remoteNodes Sample.noNodes
      (by decide)).1,
    ((forward_pass_through Sample.srv Sample.world).2.2.2 Sample.remoteNodes Sample.noNodes
      (by decide)).2.1⟩

/-- C4, as stated, fails: `ServiceChecks` with `TagFilter = true` returns its
error with an empty trace, so `forward` is not the first operation performed and
a result is returned before `forward` has been consulted. -/
theorem serviceChecks_returns_before_forward :
    (ServiceChecks Sample.srv Sample.webTagged Sample.noChecks Sample.world).err
      = some "Tag filtering is not supported" ∧
    (ServiceChecks Sample.srv Sample.webTagged Sample.noChecks Sample.world).trace = [] ∧
    ¬ ((ServiceChecks Sample.srv Sample.webTagged Sample.noChecks Sample.world).trace.head?
      = some (evServiceChecks Sample.webTagged Sample.noChecks)) := by
  refine ⟨rfl, rfl, ?_⟩
  simp [ServiceChecks, Sample.webTagged]

/-- C4, amended: `ChecksInState`, `NodeChecks` and `ServiceNodes` for every
request, and `ServiceChecks` for every request with `TagFilter = false`, begin
with the `forward` call, made with the handler's own method name,
`args.Datacenter`, `args` and `reply`; and a call of `blockingRPC` or of a store
query occurs in the trace only if `forward` reported `done = false`.
`ServiceChecks` with `TagFilter = true` makes no call at all. -/
theorem forward_first (srv : Server W HC CSN) (w : W) :
    (∀ (args : ChecksInStateRequest) (reply : IndexedHealthChecks HC),
      (ChecksInState srv args reply w).trace.head?
        = some (Event.forward "Health.ChecksInState" args.Datacenter (.checksInState args)
            (.healthChecks reply)) ∧
      ((∃ e ∈ (ChecksInState srv args reply w).trace, e.isExecutor = true) →
        (fwdChecksInState srv args reply w).done = false)) ∧
    (∀ (args : NodeSpecificRequest) (reply : IndexedHealthChecks HC),
      (NodeChecks srv args reply w).trace.head?
        = some (Event.forward "Health.NodeChecks" args.Datacenter (.nodeSpecific args)
            (.healthChecks reply)) ∧
      ((∃ e ∈ (NodeChecks srv args reply w).trace, e.isExecutor = true) →
        (fwdNodeChecks srv args reply w).done = false)) ∧
    (∀ (args : ServiceSpecificRequest) (reply : IndexedHealthChecks HC),
      (args.TagFilter = false →
        (ServiceChecks srv args reply w).trace.head?
          = some (Event.forward "Health.ServiceChecks" args.Datacenter (.serviceSpecific args)
              (.healthChecks reply)) ∧
        ((∃ e ∈ (ServiceChecks srv args reply w).trace, e.isExecutor = true) →
          (fwdServiceChecks srv args reply w).done = false)) ∧
      (args.TagFilter = true → (ServiceChecks srv args reply w).trace = [])) ∧
    (∀ (args : ServiceSpecificRequest) (reply : IndexedCheckServiceNodes CSN),
      (ServiceNodes srv args reply w).trace.head?
        = some (Event.forward "Health.ServiceNodes" args.Datacenter (.serviceSpecific args)
            (.checkServiceNodes reply)) ∧
      ((∃ e ∈ (ServiceNodes srv args reply w).trace, e.isExecutor = true) →
        (fwdServiceNodes srv args reply w).done = false)) := by
  refine ⟨?_, ?_, ?_, ?_⟩
  · intro args reply
    cases h : (srv.forward .healthChecks "Health.ChecksInState" args.Datacenter
      (.checksInState args) reply w).done <;>
      simp [ChecksInState, fwdChecksInState, h, Event.isExecutor]
  · intro args reply
    cases h : (srv.forward .healthChecks "Health.NodeChecks" args.Datacenter
      (.nodeSpecific args) reply w).done <;>
      simp [NodeChecks, fwdNodeChecks, h, Event.isExecutor]
  · intro args reply
    refine ⟨?_, ?_⟩
    · intro htag
      cases h : (srv.forward .healthChecks "Health.ServiceChecks" args.Datacenter
        (.serviceSpecific args) reply w).done <;>
        simp [ServiceChecks, fwdServiceChecks, htag, h, Event.isExecutor]
    · intro htag
      simp [ServiceChecks, htag]
  · intro args reply
    cases h : (srv.forward .checkServiceNodes "Health.ServiceNodes" args.Datacenter
      (.serviceSpecific args) reply w).done
    · by_cases hn : args.ServiceName = "" <;>
        simp [ServiceNodes, fwdServiceNodes, hn, h, Event.isExecutor]
    · simp [ServiceNodes, fwdServiceNodes, h, Event.isExecutor]

/-- Witness of C4 amended: the sample `ServiceChecks` request without tag
filtering starts with the `forward` call; its trace holds a `blockingRPC` call
and `forward` had reported `done = false`; the sample request with tag filtering
makes no call. -/
theorem forward_first_witness :
    Sample.webNodes.TagFilter = false ∧
    (ServiceChecks Sample.srv Sample.webNodes Sample.noChecks Sample.world).trace.head?
      = some (Event.forward "Health.ServiceChecks" "dc1" (.serviceSpecific Sample.webNodes)
          (.healthChecks Sample.noChecks)) ∧
    (fwdServiceChecks Sample.srv Sample.webNodes Sample.noChecks Sample.world).done = false ∧
    Sample.webTagged.TagFilter = true ∧
    (ServiceChecks Sample.srv Sample.webTagged Sample.noChecks Sample.world).trace = [] :=
  ⟨rfl,
    (((forward_first Sample.srv Sample.world).2.2.1 Sample.webNodes Sample.noChecks).1
      rfl).1,
    (((forward_first Sample.srv Sample.world).2.2.1 Sample.webNodes Sample.noChecks).1
      rfl).2 ⟨Event.blockingRPC Sample.webNodes.BlockingQuery ["ServiceChecks"],
        by decide, rfl⟩,
    rfl,
    ((forward_first Sample.srv Sample.world).2.2.1 Sample.webTagged Sample.noChecks).2 rfl⟩

/-- C5: the reply index is the index at which the reply data was computed.  Each
run of the query function of a handler makes a single store call with the
request's own filter, writes the index and the data of that call into the reply,
and returns the reply index with a nil error; and that query function is the one
the handler hands to `blockingRPC` once `forward` has declined (and, for
`ServiceChecks` and `ServiceNodes`, the argument check has passed). -/
theorem query_returns_reply_index (srv : Server W HC CSN) (w : W) :
    (∀ (args : ChecksInStateRequest) (reply : IndexedHealthChecks HC),
      (∀ (w₁ : W) (r₁ : IndexedHealthChecks HC),
        (checksInStateQuery srv.fsm.State args w₁ r₁).calls
          = [StoreCall.ChecksInState args.State] ∧
        (checksInStateQuery srv.fsm.State args w₁ r₁).reply
          = { Index := (srv.fsm.State.ChecksInState w₁ args.State).1,
              HealthChecks := (srv.fsm.State.ChecksInState w₁ args.State).2 } ∧
        (checksInStateQuery srv.fsm.State args w₁ r₁).idx
          = (checksInStateQuery srv.fsm.State args w₁ r₁).reply.Index ∧
        (checksInStateQuery srv.fsm.State args w₁ r₁).err = none) ∧
      ((fwdChecksInState srv args reply w).done = false →
        (ChecksInState srv args reply w).reply = (execChecksInState srv args reply w).reply ∧
        storeCalls (ChecksInState srv args reply w).trace
          = (execChecksInState srv args reply w).calls)) ∧
    (∀ (args : NodeSpecificRequest) (reply : IndexedHealthChecks HC),
      (∀ (w₁ : W) (r₁ : IndexedHealthChecks HC),
        (nodeChecksQuery srv.fsm.State args w₁ r₁).calls = [StoreCall.NodeChecks args.Node] ∧
        (nodeChecksQuery srv.fsm.State args w₁ r₁).reply
          = { Index := (srv.fsm.State.NodeChecks w₁ args.Node).1,
              HealthChecks := (srv.fsm.State.NodeChecks w₁ args.Node).2 } ∧
        (nodeChecksQuery srv.fsm.State args w₁ r₁).idx
          = (nodeChecksQuery srv.fsm.State args w₁ r₁).reply.Index ∧
        (nodeChecksQuery srv.fsm.State args w₁ r₁).err = none) ∧
      ((fwdNodeChecks srv args reply w).done = false →
        (NodeChecks srv args reply w).reply = (execNodeChecks srv args reply w).reply ∧
        storeCalls (NodeChecks srv args reply w).trace
          = (execNodeChecks srv args reply w).calls)) ∧
    (∀ (args : ServiceSpecificRequest) (reply : IndexedHealthChecks HC),
      (∀ (w₁ : W) (r₁ : IndexedHealthChecks HC),
        (serviceChecksQuery srv.fsm.State args w₁ r₁).calls
          = [StoreCall.ServiceChecks args.ServiceName] ∧
        (serviceChecksQuery srv.fsm.State args w₁ r₁).reply
          = { Index := (srv.fsm.State.ServiceChecks w₁ args.ServiceName).1,
              HealthChecks := (srv.fsm.State.ServiceChecks w₁ args.ServiceName).2 } ∧
        (serviceChecksQuery srv.fsm.State args w₁ r₁).idx
          = (serviceChecksQuery srv.fsm.State args w₁ r₁).reply.Index ∧
        (serviceChecksQuery srv.fsm.State args w₁ r₁).err = none) ∧
      (args.TagFilter = false → (fwdServiceChecks srv args reply w).done = false →
        (ServiceChecks srv args reply w).reply = (execServiceChecks srv args reply w).reply ∧
        storeCalls (ServiceChecks srv args reply w).trace
          = (execServiceChecks srv args reply w).calls)) ∧
    (∀ (args : ServiceSpecificRequest) (reply : IndexedCheckServiceNodes CSN),
      (∀ (w₁ : W) (r₁ : IndexedCheckServiceNodes CSN),
        (serviceNodesQuery srv.fsm.State args w₁ r₁).calls
          = (if args.TagFilter = true then
              [StoreCall.CheckServiceTagNodes args.ServiceName args.ServiceTag]
            else [StoreCall.CheckServiceNodes args.ServiceName]) ∧
        (serviceNodesQuery srv.fsm.State args w₁ r₁).reply
          = (if args.TagFilter = true then
              { Index :=
                  (srv.fsm.State.CheckServiceTagNodes w₁ args.ServiceName args.ServiceTag).1,
                Nodes :=
                  (srv.fsm.State.CheckServiceTagNodes w₁ args.ServiceName args.ServiceTag).2 }
            else
              { Index := (srv.fsm.State.CheckServiceNodes w₁ args.ServiceName).1,
                Nodes := (srv.fsm.State.CheckServiceNodes w₁ args.ServiceName).2 }) ∧
        (serviceNodesQuery srv.fsm.State args w₁ r₁).idx
          = (serviceNodesQuery srv.fsm.State args w₁ r₁).reply.Index ∧
        (serviceNodesQuery srv.fsm.State args w₁ r₁).err = none) ∧
      (args.ServiceName ≠ "" → (fwdServiceNodes srv args reply w).done = false →
        (ServiceNodes srv args reply w).reply = (execServiceNodes srv args reply w).reply ∧
        storeCalls (ServiceNodes srv args reply w).trace
          = (execServiceNodes srv args reply w).calls)) := by
  refine ⟨?_, ?_, ?_, ?_⟩
  · intro args reply
    refine ⟨fun w₁ r₁ => ⟨rfl, rfl, rfl, rfl⟩, ?_⟩
    intro h
    unfold fwdChecksInState at h
    simp [ChecksInState, execChecksInState, fwdChecksInState, h, storeCalls,
      storeCalls_map_store]
  · intro args reply
    refine ⟨fun w₁ r₁ => ⟨rfl, rfl, rfl, rfl⟩, ?_⟩
    intro h
    unfold fwdNodeChecks at h
    simp [NodeChecks, execNodeChecks, fwdNodeChecks, h, storeCalls, storeCalls_map_store]
  · intro args reply
    refine ⟨fun w₁ r₁ => ⟨rfl, rfl, rfl, rfl⟩, ?_⟩
    intro htag h
    unfold fwdServiceChecks at h
    simp [ServiceChecks, execServiceChecks, fwdServiceChecks, htag, h, storeCalls,
      storeCalls_map_store]
  · intro args reply
    refine ⟨fun w₁ r₁ => ?_, ?_⟩
    · cases htag : args.TagFilter <;> simp [serviceNodesQuery, htag]
    · intro hname h
      unfold fwdServiceNodes at h
      simp [ServiceNodes, execServiceNodes, fwdServiceNodes, hname, h, storeCalls,
        storeCalls_append, storeCalls_map_store, storeCalls_serviceNodesMetrics]

/-- Witness of C5: the sample `ServiceNodes` request names a service and is not
forwarded; its reply is the one `blockingRPC` left, index 7 with the node `web`. -/
theorem query_returns_reply_index_witness :
    Sample.webNodes.ServiceName ≠ "" ∧
    (fwdServiceNodes Sample.srv Sample.webNodes Sample.noNodes Sample.world).done = false ∧
    (ServiceNodes Sample.srv Sample.webNodes Sample.noNodes Sample.world).reply
      = { Index := 7, Nodes := ["web"] } ∧
    storeCalls (ServiceNodes Sample.srv Sample.webNodes Sample.noNodes Sample.world).trace
      = [StoreCall.CheckServiceNodes "web"] :=
  ⟨by decide, by decide,
    (((query_returns_reply_index Sample.srv Sample.world).2.2.2 Sample.webNodes
      Sample.noNodes).2 (by decide) (by decide)).1,
    (((query_returns_reply_index Sample.srv Sample.world).2.2.2 Sample.webNodes
      Sample.noNodes).2 (by decide) (by decide)).2⟩

/-- C6: the handlers neither swallow nor transform errors.  For each of the four
handlers and every request that is not forwarded and passes the handler's
argument check, the value the handler returns is the value `blockingRPC`
returned (`nil` for `nil`, the same error otherwise); in `ServiceNodes` this
holds with the metrics block between the call and the return. -/
theorem handler_returns_blockingRPC_error (srv : Server W HC CSN) (w : W) :
    (∀ (args : ChecksInStateRequest) (reply : IndexedHealthChecks HC),
      (fwdChecksInState srv args reply w).done = false →
        (ChecksInState srv args reply w).err = (execChecksInState srv args reply w).err) ∧
    (∀ (args : NodeSpecificRequest) (reply : IndexedHealthChecks HC),
      (fwdNodeChecks srv args reply w).done = false →
        (NodeChecks srv args reply w).err = (execNodeChecks srv args reply w).err) ∧
    (∀ (args : ServiceSpecificRequest) (reply : IndexedHealthChecks HC),
      args.TagFilter = false → (fwdServiceChecks srv args reply w).done = false →
        (ServiceChecks srv args reply w).err = (execServiceChecks srv args reply w).err) ∧
    (∀ (args : ServiceSpecificRequest) (reply : IndexedCheckServiceNodes CSN),
      args.ServiceName ≠ "" → (fwdServiceNodes srv args reply w).done = false →
        (ServiceNodes srv args reply w).err = (execServiceNodes srv args reply w).err) := by
  refine ⟨?_, ?_, ?_, ?_⟩
  · intro args reply h
    unfold fwdChecksInState at h
    simp [ChecksInState, execChecksInState, fwdChecksInState, h]
  · intro args reply h
    unfold fwdNodeChecks at h
    simp [NodeChecks, execNodeChecks, fwdNodeChecks, h]
  · intro args reply htag h
    unfold fwdServiceChecks at h
    simp [ServiceChecks, execServiceChecks, fwdServiceChecks, htag, h]
  · intro args reply hname h
    unfold fwdServiceNodes at h
    simp [ServiceNodes, execServiceNodes, fwdServiceNodes, hname, h]

/-- Witness of C6: a server whose `blockingRPC` fails with `rpc error` without
running the query; the sample `NodeChecks` request returns that very error. -/
theorem handler_returns_blockingRPC_error_witness :
    (fwdNodeChecks Sample.failing Sample.nodeOne Sample.noChecks Sample.world).done = false ∧
    (execNodeChecks Sample.failing Sample.nodeOne Sample.noChecks Sample.world).err
      = some "rpc error" ∧
    (NodeChecks Sample.failing Sample.nodeOne Sample.noChecks Sample.world).err
      = (execNodeChecks Sample.failing Sample.nodeOne Sample.noChecks Sample.world).err :=
  ⟨by decide, rfl,
    (handler_returns_blockingRPC_error Sample.failing Sample.world).2.1 Sample.nodeOne
      Sample.noChecks (by decide)⟩

/-- C7: metrics do not affect behaviour.  For every `ServiceNodes` request and
every behaviour of `forward`, `blockingRPC` and the store, the error, the reply
and the server state of `ServiceNodes` are those of the handler with the metrics
block removed; the traces differ only by `IncrCounter` calls appended at the
end. -/
theorem metrics_not_behaviour_affecting (srv : Server W HC CSN)
    (args : ServiceSpecificRequest) (reply : IndexedCheckServiceNodes CSN) (w : W) :
    (ServiceNodes srv args reply w).err = (ServiceNodesNoMetrics srv args reply w).err ∧
    (ServiceNodes srv args reply w).reply = (ServiceNodesNoMetrics srv args reply w).reply ∧
    (ServiceNodes srv args reply w).world = (ServiceNodesNoMetrics srv args reply w).world ∧
    ∃ ms : List (Event HC CSN),
      (ServiceNodes srv args reply w).trace
        = (ServiceNodesNoMetrics srv args reply w).trace ++ ms ∧
      ∀ e ∈ ms, e.isIncrCounter = true := by
  cases h : (srv.forward .checkServiceNodes "Health.ServiceNodes" args.Datacenter
    (.serviceSpecific args) reply w).done
  · by_cases hn : args.ServiceName = ""
    · simp [ServiceNodes, ServiceNodesNoMetrics, hn, h]
    · simp only [ServiceNodes, ServiceNodesNoMetrics, hn, h, if_false, Bool.false_eq_true,
        true_and]
      refine ⟨_, rfl, ?_⟩
      intro e he
      unfold serviceNodesMetrics at he
      split at he
      · simp only [List.mem_append, List.mem_singleton] at he
        rcases he with (he | he) | he
        · subst he; rfl
        · split at he
          · simp only [List.mem_singleton] at he; subst he; rfl
          · simp at he
        · split at he
          · simp only [List.mem_singleton] at he; subst he; rfl
          · simp at he
      · simp at he
  · simp [ServiceNodes, ServiceNodesNoMetrics, h]

/-- C8: a blocking call with `minIndex = 0` never blocks.  With the Blocking
Query Executor of the specification behind `blockingRPC`, for each of the four
handlers, every request that is not forwarded, passes the argument check and has
`MinIndex = 0`, every `MaxWait` and every wait step: the handler returns `nil`,
the store query is run exactly once, on the server state `forward` left (which
is also the state when the handler returns), and the reply holds the index and
data that single run returned. -/
theorem minIndex_zero_never_blocks (srv : Server W HC CSN) (waitFor : WaitFor W) (w : W)
    (hexec : ∀ (k : ReplyKind) (b : BlockingQuery) (tables : MDBTables)
      (run : QueryFn W (k.type HC CSN)) (w₁ : W) (r₁ : k.type HC CSN),
      srv.blockingRPC k b tables run w₁ r₁ = blockingRPCSpec waitFor b tables run w₁ r₁) :
    (∀ (args : ChecksInStateRequest) (reply : IndexedHealthChecks HC),
      (fwdChecksInState srv args reply w).done = false → args.BlockingQuery.MinIndex = 0 →
        (ChecksInState srv args reply w).err = none ∧
        storeCalls (ChecksInState srv args reply w).trace
          = [StoreCall.ChecksInState args.State] ∧
        (ChecksInState srv args reply w).reply
          = { Index := (srv.fsm.State.ChecksInState
                (fwdChecksInState srv args reply w).world args.State).1,
              HealthChecks := (srv.fsm.State.ChecksInState
                (fwdChecksInState srv args reply w).world args.State).2 } ∧
        (ChecksInState srv args reply w).world = (fwdChecksInState srv args reply w).world) ∧
    (∀ (args : NodeSpecificRequest) (reply : IndexedHealthChecks HC),
      (fwdNodeChecks srv args reply w).done = false → args.BlockingQuery.MinIndex = 0 →
        (NodeChecks srv args reply w).err = none ∧
        storeCalls (NodeChecks srv args reply w).trace = [StoreCall.NodeChecks args.Node] ∧
        (NodeChecks srv args reply w).reply
          = { Index := (srv.fsm.State.NodeChecks
                (fwdNodeChecks srv args reply w).world args.Node).1,
              HealthChecks := (srv.fsm.State.NodeChecks
                (fwdNodeChecks srv args reply w).world args.Node).2 } ∧
        (NodeChecks srv args reply w).world = (fwdNodeChecks srv args reply w).world) ∧
    (∀ (args : ServiceSpecificRequest) (reply : IndexedHealthChecks HC),
      args.TagFilter = false → (fwdServiceChecks srv args reply w).done = false →
      args.BlockingQuery.MinIndex = 0 →
        (ServiceChecks srv args reply w).err = none ∧
        storeCalls (ServiceChecks srv args reply w).trace
          = [StoreCall.ServiceChecks args.ServiceName] ∧
        (ServiceChecks srv args reply w).reply
          = { Index := (srv.fsm.State.ServiceChecks
                (fwdServiceChecks srv args reply w).world args.ServiceName).1,
              HealthChecks := (srv.fsm.State.ServiceChecks
                (fwdServiceChecks srv args reply w).world args.ServiceName).2 } ∧
        (ServiceChecks srv args reply w).world = (fwdServiceChecks srv args reply w).world) ∧
    (∀ (args : ServiceSpecificRequest) (reply : IndexedCheckServiceNodes CSN),
      args.ServiceName ≠ "" → (fwdServiceNodes srv args reply w).done = false →
      args.BlockingQuery.MinIndex = 0 →
        (ServiceNodes srv args reply w).err = none ∧
        storeCalls (ServiceNodes srv args reply w).trace
          = (if args.TagFilter = true then
              [StoreCall.CheckServiceTagNodes args.ServiceName args.ServiceTag]
            else [StoreCall.CheckServiceNodes args.ServiceName]) ∧
        (ServiceNodes srv args reply w).reply
          = (if args.TagFilter = true then
              { Index := (srv.fsm.State.CheckServiceTagNodes
                  (fwdServiceNodes srv args reply w).world args.ServiceName
                  args.ServiceTag).1,
                Nodes := (srv.fsm.State.CheckServiceTagNodes
                  (fwdServiceNodes srv args reply w).world args.ServiceName
                  args.ServiceTag).2 }
            else
              { Index := (srv.fsm.State.CheckServiceNodes
                  (fwdServiceNodes srv args reply w).world args.ServiceName).1,
                Nodes := (srv.fsm.State.CheckServiceNodes
                  (fwdServiceNodes srv args reply w).world args.ServiceName).2 }) ∧
        (ServiceNodes srv args reply w).world = (fwdServiceNodes srv args reply w).world) := by
  refine ⟨?_, ?_, ?_, ?_⟩
  · intro args reply h hmin
    rw [checksInState_local srv args reply w h, execChecksInState, hexec,
      blockingRPCSpec_minIndex_zero _ _ _ _ _ _ hmin]
    simp [checksInStateQuery, storeCalls, evChecksInState]
  · intro args reply h hmin
    rw [nodeChecks_local srv args reply w h, execNodeChecks, hexec,
      blockingRPCSpec_minIndex_zero _ _ _ _ _ _ hmin]
    simp [nodeChecksQuery, storeCalls, evNodeChecks]
  · intro args reply htag h hmin
    rw [serviceChecks_local srv args reply w htag h, execServiceChecks, hexec,
      blockingRPCSpec_minIndex_zero _ _ _ _ _ _ hmin]
    simp [serviceChecksQuery, storeCalls, evServiceChecks]
  · intro args reply hname h hmin
    rw [serviceNodes_local srv args reply w hname h, execServiceNodes, hexec,
      blockingRPCSpec_minIndex_zero _ _ _ _ _ _ hmin]
    simp only [storeCalls_append, storeCalls_map_store, storeCalls_serviceNodesMetrics]
    cases htag : args.TagFilter <;>
      simp [serviceNodesQuery, htag, storeCalls, evServiceNodes]

/-- Witness of C8: the sample server runs the executor of the specification; the
sample `ChecksInState` request has `MinIndex = 0` and `MaxWait = 5`, is not
forwarded, and is answered at once with the checks at index 7. -/
theorem minIndex_zero_never_blocks_witness :
    (fwdChecksInState Sample.srv Sample.critical Sample.noChecks Sample.world).done = false ∧
    Sample.critical.BlockingQuery.MinIndex = 0 ∧
    (ChecksInState Sample.srv Sample.critical Sample.noChecks Sample.world).err = none ∧
    storeCalls (ChecksInState Sample.srv Sample.critical Sample.noChecks Sample.world).trace
      = [StoreCall.ChecksInState "critical"] ∧
    (ChecksInState Sample.srv Sample.critical Sample.noChecks Sample.world).reply
      = { Index := 7, HealthChecks := ["critical"] } ∧
    (ChecksInState Sample.srv Sample.critical Sample.noChecks Sample.world).world
      = Sample.world :=
  ⟨by decide, rfl,
    (minIndex_zero_never_blocks Sample.srv Sample.waitFor Sample.world
      (fun _ _ _ _ _ _ => rfl)).1 Sample.critical Sample.noChecks (by decide) rfl⟩

/-- C9: `ServiceNodes` selects its store query by `TagFilter` alone.  For every
request with a non-empty `ServiceName` that is not forwarded, the query function
handed to `blockingRPC` is `serviceNodesQuery`; each run of it sets the reply to
the result of `CheckServiceTagNodes(ServiceName, ServiceTag)` when `TagFilter` is
true, an empty `ServiceTag` being passed on as it is, and to the result of
`CheckServiceNodes(ServiceName)` when `TagFilter` is false, in which case the run
does not depend on `ServiceTag`. -/
theorem serviceNodes_query_by_tagFilter (srv : Server W HC CSN)
    (args : ServiceSpecificRequest) (reply : IndexedCheckServiceNodes CSN) (w : W)
    (hname : args.ServiceName ≠ "")
    (hfwd : (fwdServiceNodes srv args reply w).done = false) :
    (ServiceNodes srv args reply w).reply
      = (srv.blockingRPC .checkServiceNodes args.BlockingQuery
          (srv.fsm.State.QueryTables "CheckServiceNodes")
          (serviceNodesQuery srv.fsm.State args) (fwdServiceNodes srv args reply w).world
          (fwdServiceNodes srv args reply w).reply).reply ∧
    (args.TagFilter = true → ∀ (w₁ : W) (r₁ : IndexedCheckServiceNodes CSN),
      (serviceNodesQuery srv.fsm.State args w₁ r₁).calls
        = [StoreCall.CheckServiceTagNodes args.ServiceName args.ServiceTag] ∧
      (serviceNodesQuery srv.fsm.State args w₁ r₁).reply
        = { Index :=
              (srv.fsm.State.CheckServiceTagNodes w₁ args.ServiceName args.ServiceTag).1,
            Nodes :=
              (srv.fsm.State.CheckServiceTagNodes w₁ args.ServiceName args.ServiceTag).2 }) ∧
    (args.TagFilter = true → args.ServiceTag = "" →
      ∀ (w₁ : W) (r₁ : IndexedCheckServiceNodes CSN),
      (serviceNodesQuery srv.fsm.State args w₁ r₁).calls
        = [StoreCall.CheckServiceTagNodes args.ServiceName ""] ∧
      (serviceNodesQuery srv.fsm.State args w₁ r₁).reply
        = { Index := (srv.fsm.State.CheckServiceTagNodes w₁ args.ServiceName "").1,
            Nodes := (srv.fsm.State.CheckServiceTagNodes w₁ args.ServiceName "").2 }) ∧
    (args.TagFilter = false → ∀ (w₁ : W) (r₁ : IndexedCheckServiceNodes CSN),
      (serviceNodesQuery srv.fsm.State args w₁ r₁).calls
        = [StoreCall.CheckServiceNodes args.ServiceName] ∧
      (serviceNodesQuery srv.fsm.State args w₁ r₁).reply
        = { Index := (srv.fsm.State.CheckServiceNodes w₁ args.ServiceName).1,
            Nodes := (srv.fsm.State.CheckServiceNodes w₁ args.ServiceName).2 } ∧
      ∀ tag : String,
        serviceNodesQuery srv.fsm.State { args with ServiceTag := tag } w₁ r₁
          = serviceNodesQuery srv.fsm.State args w₁ r₁) := by
  refine ⟨?_, ?_, ?_, ?_⟩
  · unfold fwdServiceNodes at hfwd
    simp [ServiceNodes, fwdServiceNodes, hname, hfwd]
  · intro htag w₁ r₁
    simp [serviceNodesQuery, htag]
  · intro htag hempty w₁ r₁
    simp [serviceNodesQuery, htag, hempty]
  · intro htag w₁ r₁
    simp [serviceNodesQuery, htag]

/-- Witness of C9: the sample request for service `web` with tag `v1` and tag
filtering on is answered by the tag query. -/
theorem serviceNodes_query_by_tagFilter_witness :
    Sample.webTagged.ServiceName ≠ "" ∧
    (fwdServiceNodes Sample.srv Sample.webTagged Sample.noNodes Sample.world).done = false ∧
    Sample.webTagged.TagFilter = true ∧
    (serviceNodesQuery Sample.store Sample.webTagged Sample.world Sample.noNodes).calls
      = [StoreCall.CheckServiceTagNodes "web" "v1"] ∧
    (serviceNodesQuery Sample.store Sample.webTagged Sample.world Sample.noNodes).reply
      = { Index := 7, Nodes := ["web/v1"] } :=
  ⟨by decide, by decide, rfl,
    (serviceNodes_query_by_tagFilter Sample.srv Sample.webTagged Sample.noNodes Sample.world
      (by decide) (by decide)).2.1 rfl Sample.world Sample.noNodes⟩

/-- C10: the counters of `ServiceNodes`.  For every request that reaches
`blockingRPC` (not forwarded, `ServiceName` not empty), whatever `TagFilter` is:
if `blockingRPC` returns an error, no counter is incremented; if it returns
`nil`, the `IncrCounter` calls of the handler are exactly: one increment by 1 of
`consul health service query <ServiceName>`, then one increment by 1 of
`consul health service query-tag <ServiceName> <ServiceTag>` if and only if
`ServiceTag` is not empty, then one increment by 1 of
`consul health service not-found <ServiceName>` if and only if the reply holds
no node. -/
theorem serviceNodes_counters (srv : Server W HC CSN)
    (args : ServiceSpecificRequest) (reply : IndexedCheckServiceNodes CSN) (w : W)
    (hname : args.ServiceName ≠ "")
    (hfwd : (fwdServiceNodes srv args reply w).done = false) :
    ((execServiceNodes srv args reply w).err ≠ none →
      counterCalls (ServiceNodes srv args reply w).trace = []) ∧
    ((execServiceNodes srv args reply w).err = none →
      counterCalls (ServiceNodes srv args reply w).trace
        = [(["consul", "health", "service", "query", args.ServiceName], 1)]
          ++ (if args.ServiceTag ≠ "" then
                [(["consul", "health", "service", "query-tag", args.ServiceName,
                    args.ServiceTag], 1)]
              else [])
          ++ (if (ServiceNodes srv args reply w).reply.Nodes.length = 0 then
                [(["consul", "health", "service", "not-found", args.ServiceName], 1)]
              else [])) := by
  rw [serviceNodes_local srv args reply w hname hfwd]
  simp only [counterCalls_append, counterCalls_map_store, List.append_nil]
  refine ⟨?_, ?_⟩
  · intro herr
    simp [serviceNodesMetrics, herr, counterCalls, evServiceNodes]
  · intro herr
    by_cases htag : args.ServiceTag = "" <;>
    by_cases hnodes : (execServiceNodes srv args reply w).reply.Nodes.length = 0 <;>
    simp [serviceNodesMetrics, herr, htag, hnodes, counterCalls, evServiceNodes]

/-- Witness of C10: the sample request for the unregistered service `db` with
tag `v1` increments the three counters once each. -/
theorem serviceNodes_counters_witness :
    Sample.dbTagged.ServiceName ≠ "" ∧
    (fwdServiceNodes Sample.srv Sample.dbTagged Sample.noNodes Sample.world).done = false ∧
    (execServiceNodes Sample.srv Sample.dbTagged Sample.noNodes Sample.world).err = none ∧
    counterCalls (ServiceNodes Sample.srv Sample.dbTagged Sample.noNodes Sample.world).trace
      = [(["consul", "health", "service", "query", "db"], 1),
         (["consul", "health", "service", "query-tag", "db", "v1"], 1),
         (["consul", "health", "service", "not-found", "db"], 1)] :=
  ⟨by decide, by decide, rfl,
    (serviceNodes_counters Sample.srv Sample.dbTagged Sample.noNodes Sample.world
      (by decide) (by decide)).2 rfl⟩

end Health

end Consul
